import Mathlib

/-!
Shallow embedding of the `mut_family` Rust crate.

The crate provides two coupled abstractions:
* a reference-kind family (`src/refs.rs`): marker types `SharedRefFamily` /
  `MutRefFamily` implementing the sealed trait `RefMutFamily` (with the
  constant `IS_SHARED` and the GAT `Ref<'a, T>`), and the union `SomeRef`
  holding either a shared or an exclusive reference, with constructors
  `from_shared` / `from_mut`, destructors `into_shared` / `into_mut` /
  `into_inner_ref`, and the fold operation `convert`;
* a mutation-policy family (`src/in_ex_mut/mod.rs`): marker types
  `IdentityFamily`, `UnsafeCellFamily`, `CellFamily`, `RefCellFamily`
  implementing `MutFamily` (`new`, `into_inner`, `get_mut`, `as_ptr`),
  with the capability traits `CopyInner`, `CloneInner` and `Set`.

Modelling conventions.  The embedding is for a single-threaded sequential
execution, so a reference is modelled by the current state of its referent:
`SharedRef T` and `MutRef T` are one-field structures whose `pointee` is
that state.  An operation that writes through a reference returns the new
state of the referent.  `Cell<T>` and `UnsafeCell<T>` are one-field
structures; `RefCell<T>` carries its value together with the dynamic
borrow flag of `core::cell::RefCell` (`0` = unborrowed, positive = that
many live shared borrows, negative = a live exclusive borrow).  A Rust
panic (the `RefCell` borrow conflict) is modelled by `Except Panic`.
A raw pointer returned by `as_ptr` always points at the wrapper's inner
`T` slot, so it is modelled by the pair of operations `as_ptr_read`
(dereference the pointer) and `as_ptr_write` (write through the pointer,
returning the wrapper's new state).
-/

set_option linter.unusedVariables false

/-- The Rust panic outcomes relevant to this crate: `RefCell::borrow` and
`RefCell::borrow_mut` conflict panics. -/
inductive Panic where
  | borrowError
  | borrowMutError
  deriving DecidableEq

/-- A shared reference `&'a T`, modelled by the current state of its
referent. -/
structure SharedRef (T : Type) where
  pointee : T
  deriving DecidableEq

/-- An exclusive reference `&'a mut T`, modelled by the current state of
its referent. -/
structure MutRef (T : Type) where
  pointee : T
  deriving DecidableEq

/-- Writing `*r = value` through an exclusive reference: the referent's new
state is `value`. -/
def MutRef.write {T : Type} (r : MutRef T) (value : T) : T :=
  value

/-- `Clone::clone` for the value types this crate quantifies over; the
embedding assumes the well-behaved (value-preserving) clone that `Copy`
types and ordinary data types provide. -/
def rustClone {T : Type} (x : T) : T :=
  x

/-- The two implementors of the sealed trait `RefMutFamily` in
`src/refs.rs`: `SharedRefFamily` and `MutRefFamily`. -/
inductive RefMutFamily where
  | sharedRefFamily
  | mutRefFamily
  deriving DecidableEq

/-- `const IS_SHARED: bool`: `true` for `SharedRefFamily`
(src/refs.rs line 148), `false` for `MutRefFamily` (line 174). -/
def RefMutFamily.IS_SHARED : RefMutFamily → Bool
  | .sharedRefFamily => true
  | .mutRefFamily => false

/-- The GAT `type Ref<'a, T>`: `&'a T` for `SharedRefFamily`
(src/refs.rs line 150), `&'a mut T` for `MutRefFamily` (line 176). -/
def RefMutFamily.Ref : RefMutFamily → Type → Type
  | .sharedRefFamily, T => SharedRef T
  | .mutRefFamily, T => MutRef T

/-- The pointee read through a `RefMutFamily::Ref` of either kind. -/
def RefMutFamily.refPointee : {M : RefMutFamily} → {T : Type} → M.Ref T → T
  | .sharedRefFamily, _, r => r.pointee
  | .mutRefFamily, _, r => r.pointee

/-- The union `SomeRef<'a, T, M>` of src/refs.rs: a single slot that holds
either arm `shared: &'a T` or `mut_: &'a mut T`; the discriminant is the
static parameter `M`.  Both arms are references to the same pointee type,
so the slot is modelled by the pointee's current state. -/
structure SomeRef (T : Type) (M : RefMutFamily) where
  val : T

/-- `SomeRef::from_shared` (src/refs.rs lines 127-129): stores the given
shared reference in the slot. -/
def SomeRef.from_shared {T : Type} (shared : SharedRef T) : SomeRef T .sharedRefFamily :=
  ⟨shared.pointee⟩

/-- `SomeRef::into_shared` (src/refs.rs lines 131-133): reads the `shared`
arm. -/
def SomeRef.into_shared {T : Type} (s : SomeRef T .sharedRefFamily) : SharedRef T :=
  ⟨s.val⟩

/-- `SomeRef::from_mut` (src/refs.rs lines 137-139): stores the given
exclusive reference in the slot. -/
def SomeRef.from_mut {T : Type} (m : MutRef T) : SomeRef T .mutRefFamily :=
  ⟨m.pointee⟩

/-- `SomeRef::into_mut` (src/refs.rs lines 141-143): reads the `mut_`
arm. -/
def SomeRef.into_mut {T : Type} (s : SomeRef T .mutRefFamily) : MutRef T :=
  ⟨s.val⟩

/-- `SomeRef::into_inner_ref` (src/refs.rs lines 72-91): the
`transmute_copy` of the slot to the concrete reference type
`M::Ref<'a, T>`.  Under `M = SharedRefFamily` the slot holds the `shared`
arm and the target type is `&'a T`; under `M = MutRefFamily` the slot
holds the `mut_` arm and the target type is `&'a mut T`; either way the
reinterpretation preserves the stored bits, hence the pointee. -/
def SomeRef.into_inner_ref {T : Type} : {M : RefMutFamily} → SomeRef T M → M.Ref T
  | .sharedRefFamily, s => SharedRef.mk s.val
  | .mutRefFamily, s => MutRef.mk s.val

/-- `SomeRef::convert` (src/refs.rs lines 112-123): branches on
`M::IS_SHARED`; the shared branch applies `f_ref` to the `shared` arm, the
exclusive branch applies `f_mut` to the reborrowed `mut_` arm. -/
def SomeRef.convert {T O : Type} {M : RefMutFamily} (s : SomeRef T M)
    (f_ref : SharedRef T → O) (f_mut : MutRef T → O) : O :=
  if M.IS_SHARED then f_ref ⟨s.val⟩ else f_mut ⟨s.val⟩

/-- `core::cell::Cell<T>`. -/
structure Cell (T : Type) where
  value : T
  deriving DecidableEq

/-- `Cell::new`. -/
def Cell.new {T : Type} (value : T) : Cell T :=
  ⟨value⟩

/-- `Cell::into_inner`. -/
def Cell.into_inner {T : Type} (self : Cell T) : T :=
  self.value

/-- `Cell::get` (for `Copy` contents). -/
def Cell.get {T : Type} (self : Cell T) : T :=
  self.value

/-- `Cell::set(&self, val)`: the cell's new state. -/
def Cell.set {T : Type} (self : Cell T) (val : T) : Cell T :=
  ⟨val⟩

/-- `core::cell::UnsafeCell<T>`. -/
structure UnsafeCell (T : Type) where
  value : T
  deriving DecidableEq

/-- `UnsafeCell::new`. -/
def UnsafeCell.new {T : Type} (value : T) : UnsafeCell T :=
  ⟨value⟩

/-- `UnsafeCell::into_inner`. -/
def UnsafeCell.into_inner {T : Type} (self : UnsafeCell T) : T :=
  self.value

/-- `core::cell::RefCell<T>` with its dynamic borrow flag: `0` means
unborrowed, a positive flag counts live shared borrows, a negative flag
marks a live exclusive borrow. -/
structure RefCell (T : Type) where
  value : T
  borrowFlag : Int
  deriving DecidableEq

/-- `RefCell::new`: the flag starts unborrowed. -/
def RefCell.new {T : Type} (value : T) : RefCell T :=
  ⟨value, 0⟩

/-- `RefCell::into_inner`. -/
def RefCell.into_inner {T : Type} (self : RefCell T) : T :=
  self.value

/-- A complete `*self.borrow()` read: `borrow` panics when an exclusive
borrow is live (negative flag), otherwise the guard is taken, the value is
read, and the guard is dropped, restoring the flag. -/
def RefCell.readViaBorrow {T : Type} (self : RefCell T) : Except Panic T :=
  if self.borrowFlag < 0 then .error .borrowError else .ok self.value

/-- A complete `*self.borrow_mut() = value` write: `borrow_mut` panics when
any borrow is live (nonzero flag), otherwise the guard is taken, the value
is overwritten, and the guard is dropped, restoring the flag. -/
def RefCell.writeViaBorrowMut {T : Type} (self : RefCell T) (value : T) :
    Except Panic (RefCell T) :=
  if self.borrowFlag = 0 then .ok ⟨value, self.borrowFlag⟩ else .error .borrowMutError

namespace IdentityFamily

/-- `MutFamily::new` for `IdentityFamily` (src/in_ex_mut/mod.rs lines
139-141): `Target<T> = T`, the value is stored directly. -/
def new {T : Type} (value : T) : T :=
  value

/-- `MutFamily::into_inner` for `IdentityFamily` (lines 143-145). -/
def into_inner {T : Type} (target : T) : T :=
  target

/-- `MutFamily::get_mut` for `IdentityFamily` (lines 151-153): the value
read through the returned `&mut T`. -/
def get_mut {T : Type} (mut_ref : T) : T :=
  mut_ref

/-- Dereferencing the pointer returned by `IdentityFamily::as_ptr` (lines
147-149, `ref_ as *mut T`): it points at the value itself. -/
def as_ptr_read {T : Type} (ref_ : MutRef T) : T :=
  ref_.pointee

/-- Writing through the pointer returned by `IdentityFamily::as_ptr`: the
slot's new state. -/
def as_ptr_write {T : Type} (ref_ : MutRef T) (x : T) : T :=
  x

/-- `CopyInner::copy_inner` for `IdentityFamily` (lines 220-227):
`*ref_`. -/
def copy_inner {T : Type} (ref_ : T) : T :=
  ref_

/-- `CloneInner::clone_inner` for `IdentityFamily` (lines 247-254):
`ref_.clone()`. -/
def clone_inner {T : Type} (ref_ : T) : T :=
  rustClone ref_

/-- `Set::set` for `IdentityFamily` (lines 267-269):
`RefMutFamilyAllowingMutation = MutRefFamily`, `*ref_ = value`. -/
def set {T : Type} (ref_ : MutRef T) (value : T) : T :=
  MutRef.write ref_ value

/-- `Set::set_via_someref` for `IdentityFamily` (lines 271-274):
`let mut_ref = someref.into_mut(); *mut_ref = value`. -/
def set_via_someref {T : Type} (someref : SomeRef T .mutRefFamily) (value : T) : T :=
  MutRef.write someref.into_mut value

end IdentityFamily

namespace UnsafeCellFamily

/-- `MutFamily::new` for `UnsafeCellFamily` (src/in_ex_mut/mod.rs lines
161-163). -/
def new {T : Type} (value : T) : UnsafeCell T :=
  UnsafeCell.new value

/-- `MutFamily::into_inner` for `UnsafeCellFamily` (lines 165-167). -/
def into_inner {T : Type} (target : UnsafeCell T) : T :=
  target.into_inner

/-- `MutFamily::get_mut` for `UnsafeCellFamily` (lines 173-175): the value
read through `UnsafeCell::get_mut`. -/
def get_mut {T : Type} (mut_ref : UnsafeCell T) : T :=
  mut_ref.value

/-- Dereferencing the pointer returned by `UnsafeCellFamily::as_ptr`
(lines 169-171, `ref_.get()`): it points at the inner value. -/
def as_ptr_read {T : Type} (ref_ : SharedRef (UnsafeCell T)) : T :=
  ref_.pointee.value

/-- Writing through the pointer returned by `UnsafeCellFamily::as_ptr`:
the cell's new state. -/
def as_ptr_write {T : Type} (ref_ : SharedRef (UnsafeCell T)) (x : T) : UnsafeCell T :=
  ⟨x⟩

end UnsafeCellFamily

namespace CellFamily

/-- `MutFamily::new` for `CellFamily` (src/in_ex_mut/mod.rs lines
182-184). -/
def new {T : Type} (value : T) : Cell T :=
  Cell.new value

/-- `MutFamily::into_inner` for `CellFamily` (lines 186-188). -/
def into_inner {T : Type} (target : Cell T) : T :=
  target.into_inner

/-- `MutFamily::get_mut` for `CellFamily` (lines 194-196): the value read
through `Cell::get_mut`. -/
def get_mut {T : Type} (mut_ref : Cell T) : T :=
  mut_ref.value

/-- Dereferencing the pointer returned by `CellFamily::as_ptr` (lines
190-192, `ref_.as_ptr()`): it points at the inner value. -/
def as_ptr_read {T : Type} (ref_ : SharedRef (Cell T)) : T :=
  ref_.pointee.value

/-- Writing through the pointer returned by `CellFamily::as_ptr`: the
cell's new state. -/
def as_ptr_write {T : Type} (ref_ : SharedRef (Cell T)) (x : T) : Cell T :=
  ⟨x⟩

/-- `CopyInner::copy_inner` for `CellFamily` (lines 229-236):
`ref_.get()`. -/
def copy_inner {T : Type} (ref_ : Cell T) : T :=
  ref_.get

/-- `Set::set` for `CellFamily` (lines 279-281):
`RefMutFamilyAllowingMutation = SharedRefFamily`, `ref_.set(value)`. -/
def set {T : Type} (ref_ : SharedRef (Cell T)) (value : T) : Cell T :=
  Cell.set ref_.pointee value

/-- `Set::set_via_someref` for `CellFamily` (lines 283-289):
`let ref_ = someref.into_shared(); ref_.set(value)`. -/
def set_via_someref {T : Type} (someref : SomeRef (Cell T) .sharedRefFamily) (value : T) :
    Cell T :=
  Cell.set someref.into_shared.pointee value

end CellFamily

namespace RefCellFamily

/-- `MutFamily::new` for `RefCellFamily` (src/in_ex_mut/mod.rs lines
203-205). -/
def new {T : Type} (value : T) : RefCell T :=
  RefCell.new value

/-- `MutFamily::into_inner` for `RefCellFamily` (lines 207-209). -/
def into_inner {T : Type} (target : RefCell T) : T :=
  target.into_inner

/-- `MutFamily::get_mut` for `RefCellFamily` (lines 215-217): the value
read through `RefCell::get_mut`, which relies on the compile-time
exclusivity of `&mut RefCell<T>` and neither inspects nor updates the
dynamic borrow flag. -/
def get_mut {T : Type} (mut_ref : RefCell T) : T :=
  mut_ref.value

/-- Dereferencing the pointer returned by `RefCellFamily::as_ptr` (lines
211-213, `ref_.as_ptr()`): it points at the inner value. -/
def as_ptr_read {T : Type} (ref_ : SharedRef (RefCell T)) : T :=
  ref_.pointee.value

/-- Writing through the pointer returned by `RefCellFamily::as_ptr`: the
value slot changes, the borrow flag is untouched. -/
def as_ptr_write {T : Type} (ref_ : SharedRef (RefCell T)) (x : T) : RefCell T :=
  ⟨x, ref_.pointee.borrowFlag⟩

/-- `CopyInner::copy_inner` for `RefCellFamily` (lines 238-245):
`*ref_.borrow()`, which panics on a live exclusive borrow. -/
def copy_inner {T : Type} (ref_ : RefCell T) : Except Panic T :=
  ref_.readViaBorrow

/-- `CloneInner::clone_inner` for `RefCellFamily` (lines 256-263):
`ref_.borrow().clone()`, which panics on a live exclusive borrow. -/
def clone_inner {T : Type} (ref_ : RefCell T) : Except Panic T :=
  (ref_.readViaBorrow).map rustClone

/-- `Set::set` for `RefCellFamily` (lines 294-296):
`RefMutFamilyAllowingMutation = SharedRefFamily`,
`*ref_.borrow_mut() = value`, which panics on any live borrow. -/
def set {T : Type} (ref_ : SharedRef (RefCell T)) (value : T) : Except Panic (RefCell T) :=
  RefCell.writeViaBorrowMut ref_.pointee value

/-- `Set::set_via_someref` for `RefCellFamily` (lines 298-304):
`let ref_ = someref.into_shared(); *ref_.borrow_mut() = value`. -/
def set_via_someref {T : Type} (someref : SomeRef (RefCell T) .sharedRefFamily) (value : T) :
    Except Panic (RefCell T) :=
  RefCell.writeViaBorrowMut someref.into_shared.pointee value

end RefCellFamily

/-- The four mutation-policy marker types of src/in_ex_mut/mod.rs. -/
inductive Family where
  | identityFamily
  | unsafeCellFamily
  | cellFamily
  | refCellFamily
  deriving DecidableEq

/-- Which families have an `impl Set for _` block in src/in_ex_mut/mod.rs:
`IdentityFamily` (line 265), `CellFamily` (line 277), `RefCellFamily`
(line 292); the file contains no `impl Set for UnsafeCellFamily`. -/
def implementsSet : Family → Bool
  | .identityFamily => true
  | .unsafeCellFamily => false
  | .cellFamily => true
  | .refCellFamily => true

/-- The `Set::RefMutFamilyAllowingMutation` associated type of each `Set`
impl: `MutRefFamily` for `IdentityFamily` (line 266), `SharedRefFamily`
for `CellFamily` (line 278) and `RefCellFamily` (line 293); none for
`UnsafeCellFamily`, which has no `Set` impl. -/
def setRequiredKind : Family → Option RefMutFamily
  | .identityFamily => some .mutRefFamily
  | .unsafeCellFamily => none
  | .cellFamily => some .sharedRefFamily
  | .refCellFamily => some .sharedRefFamily

/-- C1: for every one of the four mutation policies (`IdentityFamily`,
`UnsafeCellFamily`, `CellFamily`, `RefCellFamily`) and every value `v` of
every type `T`, `into_inner (new v)` returns `v` unchanged: wrapping
followed by unwrapping is the identity, with no value transformation. -/
theorem c1_round_trip : ∀ (T : Type) (v : T),
    IdentityFamily.into_inner (IdentityFamily.new v) = v
    ∧ UnsafeCellFamily.into_inner (UnsafeCellFamily.new v) = v
    ∧ CellFamily.into_inner (CellFamily.new v) = v
    ∧ RefCellFamily.into_inner (RefCellFamily.new v) = v := by
  intro T v
  exact ⟨rfl, rfl, rfl, rfl⟩

/-- C2: for each `RefMutFamily` variant, the constant `IS_SHARED` agrees
with the concrete reference type produced by `Ref<'a, T>`
(`SharedRefFamily` has `IS_SHARED = true` and `Ref = &'a T`; `MutRefFamily`
has `IS_SHARED = false` and `Ref = &'a mut T`), and building a `SomeRef`
from a reference under the matching variant and converting it back via
`into_inner_ref` yields a reference to the same pointee (the conversion is
total in the embedding: it never panics). -/
theorem c2_kind_tag_consistency :
    RefMutFamily.IS_SHARED .sharedRefFamily = true
    ∧ RefMutFamily.IS_SHARED .mutRefFamily = false
    ∧ (∀ T : Type, RefMutFamily.Ref .sharedRefFamily T = SharedRef T)
    ∧ (∀ T : Type, RefMutFamily.Ref .mutRefFamily T = MutRef T)
    ∧ (∀ (T : Type) (r : SharedRef T),
        SomeRef.into_inner_ref (SomeRef.from_shared r) = r)
    ∧ (∀ (T : Type) (m : MutRef T),
        SomeRef.into_inner_ref (SomeRef.from_mut m) = m) := by
  refine ⟨rfl, rfl, fun T => rfl, fun T => rfl, fun T r => rfl, fun T m => rfl⟩

/-- C3: `convert` (the fold) on a `SomeRef` built from a shared reference
returns the shared-branch function's result, applying it exactly once to
that reference and never applying the exclusive-branch function; and
symmetrically for a `SomeRef` built from an exclusive reference.  The
first two conjuncts state the dispatch equationally; the last two record
the invocation counts with instrumented branch functions. -/
theorem c3_fold_dispatch : ∀ (T O : Type) (r : SharedRef T) (m : MutRef T)
    (f_ref : SharedRef T → O) (f_mut : MutRef T → O),
    SomeRef.convert (SomeRef.from_shared r) f_ref f_mut = f_ref r
    ∧ SomeRef.convert (SomeRef.from_mut m) f_ref f_mut = f_mut m
    ∧ SomeRef.convert (SomeRef.from_shared r)
        (fun x => (f_ref x, 1, 0)) (fun x => (f_mut x, 0, 1)) = (f_ref r, 1, 0)
    ∧ SomeRef.convert (SomeRef.from_mut m)
        (fun x => (f_ref x, 1, 0)) (fun x => (f_mut x, 0, 1)) = (f_mut m, 0, 1) := by
  intro T O r m f_ref f_mut
  exact ⟨rfl, rfl, rfl, rfl⟩

/-- C4 counterexample: the claim says every one of the four mutation
policies exposes the `set` operation, but src/in_ex_mut/mod.rs contains no
`impl Set for UnsafeCellFamily`: the Raw policy does not implement `Set`
at all. -/
theorem c4_counterexample : implementsSet Family.unsafeCellFamily = false := by
  rfl

/-- C4 (amended): the Identity, Counted and Checked policies
(`IdentityFamily`, `CellFamily`, `RefCellFamily`) implement `Set`,
exposing `set` — requiring an exclusive reference for Identity and a
shared reference for Counted and Checked — which overwrites the wrapped
contents, together with `set_via_someref` accepting a `SomeRef` of the
required kind; the Raw policy (`UnsafeCellFamily`) does not implement
`Set`. -/
theorem c4_set_exposed :
    implementsSet Family.identityFamily = true
    ∧ implementsSet Family.cellFamily = true
    ∧ implementsSet Family.refCellFamily = true
    ∧ implementsSet Family.unsafeCellFamily = false
    ∧ setRequiredKind Family.identityFamily = some RefMutFamily.mutRefFamily
    ∧ setRequiredKind Family.cellFamily = some RefMutFamily.sharedRefFamily
    ∧ setRequiredKind Family.refCellFamily = some RefMutFamily.sharedRefFamily
    ∧ setRequiredKind Family.unsafeCellFamily = none
    ∧ (∀ (T : Type) (r : MutRef T) (v : T), IdentityFamily.set r v = v)
    ∧ (∀ (T : Type) (r : SharedRef (Cell T)) (v : T), (CellFamily.set r v).value = v)
    ∧ (∀ (T : Type) (v0 v : T),
        RefCellFamily.set (SharedRef.mk (RefCell.new v0)) v = Except.ok (RefCell.mk v 0))
    ∧ (∀ (T : Type) (m : MutRef T) (v : T),
        IdentityFamily.set_via_someref (SomeRef.from_mut m) v = v)
    ∧ (∀ (T : Type) (r : SharedRef (Cell T)) (v : T),
        (CellFamily.set_via_someref (SomeRef.from_shared r) v).value = v)
    ∧ (∀ (T : Type) (v0 v : T),
        RefCellFamily.set_via_someref (SomeRef.from_shared (SharedRef.mk (RefCell.new v0))) v
          = Except.ok (RefCell.mk v 0)) := by
  refine ⟨rfl, rfl, rfl, rfl, rfl, rfl, rfl, rfl,
    fun T r v => rfl, fun T r v => rfl, fun T v0 v => rfl,
    fun T m v => rfl, fun T r v => rfl, fun T v0 v => rfl⟩

/-- C5: for the Identity, Counted and Checked policies, after
`set (w, v2)` on a wrapper `w` (for Checked, on a wrapper whose dynamic
borrow flag is clear, so that `set` succeeds), every subsequent read of
the resulting wrapper state via the policy's `copy_inner`, `clone_inner`
or `get_mut` yields `v2`.  The Counted policy implements `copy_inner` and
`get_mut` (it has no `CloneInner` impl); the Checked reads return
`Except.ok v2`. -/
theorem c5_mutation_visibility (T : Type) (w v2 : T) (c : Cell T) (rc : RefCell T)
    (h : rc.borrowFlag = 0) :
    IdentityFamily.copy_inner (IdentityFamily.set (MutRef.mk w) v2) = v2
    ∧ IdentityFamily.clone_inner (IdentityFamily.set (MutRef.mk w) v2) = v2
    ∧ IdentityFamily.get_mut (IdentityFamily.set (MutRef.mk w) v2) = v2
    ∧ CellFamily.copy_inner (CellFamily.set (SharedRef.mk c) v2) = v2
    ∧ CellFamily.get_mut (CellFamily.set (SharedRef.mk c) v2) = v2
    ∧ RefCellFamily.set (SharedRef.mk rc) v2 = Except.ok (RefCell.mk v2 rc.borrowFlag)
    ∧ RefCellFamily.copy_inner (RefCell.mk v2 rc.borrowFlag) = Except.ok v2
    ∧ RefCellFamily.clone_inner (RefCell.mk v2 rc.borrowFlag) = Except.ok v2
    ∧ RefCellFamily.get_mut (RefCell.mk v2 rc.borrowFlag) = v2 := by
  have h0 : ¬ ((0 : Int) < 0) := by decide
  refine ⟨rfl, rfl, rfl, rfl, rfl, ?_, ?_, ?_, rfl⟩
  · simp [RefCellFamily.set, RefCell.writeViaBorrowMut, h]
  · simp [RefCellFamily.copy_inner, RefCell.readViaBorrow, h, h0]
  · simp [RefCellFamily.clone_inner, RefCell.readViaBorrow, h, h0, rustClone, Except.map]

/-- C5 witness: the mutation-visibility theorem instantiated at `T = Int`,
`w = 1`, `v2 = 2`, a Counted cell holding `3` and a Checked cell holding
`5` with a clear borrow flag. -/
theorem c5_mutation_visibility_witness :
    (RefCell.mk (5 : Int) 0).borrowFlag = 0
    ∧ (IdentityFamily.copy_inner (IdentityFamily.set (MutRef.mk (1 : Int)) 2) = 2
      ∧ IdentityFamily.clone_inner (IdentityFamily.set (MutRef.mk (1 : Int)) 2) = 2
      ∧ IdentityFamily.get_mut (IdentityFamily.set (MutRef.mk (1 : Int)) 2) = 2
      ∧ CellFamily.copy_inner (CellFamily.set (SharedRef.mk (Cell.mk (3 : Int))) 2) = 2
      ∧ CellFamily.get_mut (CellFamily.set (SharedRef.mk (Cell.mk (3 : Int))) 2) = 2
      ∧ RefCellFamily.set (SharedRef.mk (RefCell.mk (5 : Int) 0)) 2
          = Except.ok (RefCell.mk 2 (RefCell.mk (5 : Int) 0).borrowFlag)
      ∧ RefCellFamily.copy_inner (RefCell.mk (2 : Int) (RefCell.mk (5 : Int) 0).borrowFlag)
          = Except.ok 2
      ∧ RefCellFamily.clone_inner (RefCell.mk (2 : Int) (RefCell.mk (5 : Int) 0).borrowFlag)
          = Except.ok 2
      ∧ RefCellFamily.get_mut (RefCell.mk (2 : Int) (RefCell.mk (5 : Int) 0).borrowFlag) = 2) :=
  ⟨rfl, c5_mutation_visibility Int 1 2 (Cell.mk 3) (RefCell.mk 5 0) rfl⟩

/-- C6 counterexample: the claim expects that, on a Checked wrapper
holding `5`, `copy_inner` performed while an exclusive view obtained via
`get_mut` exists reports the borrow-conflict failure instead of returning
a value.  In the code, `RefCellFamily::get_mut` is `RefCell::get_mut`,
which relies on compile-time exclusivity and leaves the dynamic borrow
flag untouched, so the wrapper state while such a view exists is still
`RefCellFamily.new 5` with a clear flag, and `copy_inner` on that state
returns the value `Except.ok 5`, not the conflict failure. -/
theorem c6_counterexample :
    RefCellFamily.get_mut (RefCellFamily.new (5 : Int)) = 5
    ∧ (RefCellFamily.new (5 : Int)).borrowFlag = 0
    ∧ RefCellFamily.copy_inner (RefCellFamily.new (5 : Int)) = Except.ok 5 := by
  refine ⟨rfl, rfl, ?_⟩
  simp [RefCellFamily.copy_inner, RefCellFamily.new, RefCell.new, RefCell.readViaBorrow]

/-- C6 (amended): for a Checked-policy wrapper holding the integer `5`,
`get_mut` obtains its exclusive view purely through compile-time exclusive
access and does not engage the dynamic borrow tracker, so `copy_inner`
still succeeds and returns `5` while such a view exists; the conflict
failure arises only when the dynamic borrow flag records a live exclusive
borrow (as `set`'s internal `borrow_mut` creates), in which case
`copy_inner` reports the conflict instead of returning a value; once the
flag is clear again, `copy_inner` succeeds and returns `5`. -/
theorem c6_checked_conflict :
    RefCellFamily.get_mut (RefCellFamily.new (5 : Int)) = 5
    ∧ RefCellFamily.copy_inner (RefCellFamily.new (5 : Int)) = Except.ok 5
    ∧ RefCellFamily.copy_inner (RefCell.mk (5 : Int) (-1)) = Except.error Panic.borrowError
    ∧ RefCellFamily.copy_inner (RefCell.mk (5 : Int) 0) = Except.ok 5 := by
  refine ⟨rfl, ?_, ?_, ?_⟩
  · simp [RefCellFamily.copy_inner, RefCellFamily.new, RefCell.new, RefCell.readViaBorrow]
  · simp [RefCellFamily.copy_inner, RefCell.readViaBorrow]
  · simp [RefCellFamily.copy_inner, RefCell.readViaBorrow]

/-- C8: for every policy and every value `v`, dereferencing the pointer
returned by `as_ptr` on a wrapper freshly obtained from `new v` yields
`v`, before any other mutation; and for the Raw policy specifically, after
`new 10`, writing `20` through the pointer returned by `as_ptr` makes
`into_inner` yield `20`. -/
theorem c8_pointer_identity : ∀ (T : Type) (v : T),
    IdentityFamily.as_ptr_read (MutRef.mk (IdentityFamily.new v)) = v
    ∧ UnsafeCellFamily.as_ptr_read (SharedRef.mk (UnsafeCellFamily.new v)) = v
    ∧ CellFamily.as_ptr_read (SharedRef.mk (CellFamily.new v)) = v
    ∧ RefCellFamily.as_ptr_read (SharedRef.mk (RefCellFamily.new v)) = v
    ∧ UnsafeCellFamily.into_inner
        (UnsafeCellFamily.as_ptr_write (SharedRef.mk (UnsafeCellFamily.new (10 : Int))) 20)
        = 20 := by
  intro T v
  exact ⟨rfl, rfl, rfl, rfl, rfl⟩

/-- C9: for the Checked policy, `get_mut` is total: it reads the value for
every borrow-flag state and never triggers the dynamic borrow check,
because it relies only on compile-time exclusive access to the wrapper;
whereas in a state with a live exclusive borrow (negative flag, as the
dynamic borrow tracker records during `set`'s `borrow_mut`), `copy_inner`,
`clone_inner` and `set` all report the conflict failure. -/
theorem c9_get_mut_total (T : Type) (v w : T) (b : Int) (hb : b < 0) :
    (∀ flag : Int, RefCellFamily.get_mut (RefCell.mk v flag) = v)
    ∧ RefCellFamily.copy_inner (RefCell.mk v b) = Except.error Panic.borrowError
    ∧ RefCellFamily.clone_inner (RefCell.mk v b) = Except.error Panic.borrowError
    ∧ RefCellFamily.set (SharedRef.mk (RefCell.mk v b)) w = Except.error Panic.borrowMutError := by
  have hb0 : b ≠ 0 := by omega
  refine ⟨fun flag => rfl, ?_, ?_, ?_⟩
  · simp [RefCellFamily.copy_inner, RefCell.readViaBorrow, hb]
  · simp [RefCellFamily.clone_inner, RefCell.readViaBorrow, hb, Except.map]
  · simp [RefCellFamily.set, RefCell.writeViaBorrowMut, hb0]

/-- C9 witness: the totality theorem instantiated at `T = Int`, `v = 5`,
`w = 6` and the exclusively-borrowed flag `-1`. -/
theorem c9_get_mut_total_witness :
    (-1 : Int) < 0
    ∧ ((∀ flag : Int, RefCellFamily.get_mut (RefCell.mk (5 : Int) flag) = 5)
      ∧ RefCellFamily.copy_inner (RefCell.mk (5 : Int) (-1)) = Except.error Panic.borrowError
      ∧ RefCellFamily.clone_inner (RefCell.mk (5 : Int) (-1)) = Except.error Panic.borrowError
      ∧ RefCellFamily.set (SharedRef.mk (RefCell.mk (5 : Int) (-1))) 6
          = Except.error Panic.borrowMutError) :=
  ⟨by decide, c9_get_mut_total Int 5 6 (-1) (by decide)⟩

/-- C10: for every policy that implements `Set` (Identity, Counted,
Checked) and every reference of the policy's required kind and value `v`,
`set_via_someref` applied to the `SomeRef` built from that reference has
exactly the same effect on the wrapped contents as calling `set` directly
on the concrete reference. -/
theorem c10_set_via_someref_equiv : ∀ (T : Type) (m : MutRef T)
    (c : SharedRef (Cell T)) (rc : SharedRef (RefCell T)) (v : T),
    IdentityFamily.set_via_someref (SomeRef.from_mut m) v = IdentityFamily.set m v
    ∧ CellFamily.set_via_someref (SomeRef.from_shared c) v = CellFamily.set c v
    ∧ RefCellFamily.set_via_someref (SomeRef.from_shared rc) v = RefCellFamily.set rc v := by
  intro T m c rc v
  exact ⟨rfl, rfl, rfl⟩
